import Mathlib

/-!
Verification of the gstd request-handling core (fork of gstd-1.x).

The definitions below are shallow embeddings of the C sources:
  - `libgstd/gstd_http.c`  (HTTP server: status mapping, request dispatch,
    worker rendering, server callback, fast paths, startup)
  - `gstd_socket.c`        (TCP server: per-connection loop rendering,
    read-buffer handling)
  - `gstd_action.c`        (action create handler)
  - the parser test suite  (documented parser behavior; `gstd_parser.c`
    itself is not part of this source subset)

External GLib/libsoup routines are modelled by their documented semantics
(`g_strsplit` with a token cap, `g_return_val_if_fail`, `g_thread_pool_new`
with -1 meaning an unlimited thread count, `g_input_stream_read` returning at
most the requested count). Routines of this repository that exist here only
as callers or declarations (`gstd_parser_parse_cmd`,
`gstd_return_code_to_string`, the numeric values of the return-code enum,
`GSTD_HTTP_DEFAULT_MAX_THREADS`) are either taken as parameters of the
embedding or modelled from the specification, as indicated by their doc
comments.

Note on `gstd_http.c`: the packed source holds, besides the complete file,
a leading fragment of an older revision of `server_callback` (announced by
the line "Replace the conflicted section with this:"). The changelog entries
for 0.16.0 ("Memory leak on thread pool push failure", "Changed malloc() to
g_new0()") and 0.16.1 ("CORS headers not set on HTTP responses") identify
the complete file as the current code and the fragment as the superseded,
pre-fix revision; the embedding follows the complete file.
-/

namespace Gstd

/-- The `GstdReturnCode` enumeration, the closed set of outcomes returned by
every core operation (declared in `gstd_return_codes.h`; the set is listed in
the specification and used throughout the sources in `src/`). -/
inductive GstdReturnCode where
  | EOK
  | NULL_ARGUMENT
  | BAD_COMMAND
  | NO_RESOURCE
  | EXISTING_RESOURCE
  | BAD_VALUE
  | NO_CONNECTION
  | NO_UPDATE
  | TIMEOUT
  deriving DecidableEq, Repr

/-- libsoup status constant `SOUP_STATUS_OK`. -/
def SOUP_STATUS_OK : Nat := 200

/-- libsoup status constant `SOUP_STATUS_NO_CONTENT`. -/
def SOUP_STATUS_NO_CONTENT : Nat := 204

/-- libsoup status constant `SOUP_STATUS_BAD_REQUEST`. -/
def SOUP_STATUS_BAD_REQUEST : Nat := 400

/-- libsoup status constant `SOUP_STATUS_NOT_FOUND`. -/
def SOUP_STATUS_NOT_FOUND : Nat := 404

/-- libsoup status constant `SOUP_STATUS_CONFLICT`. -/
def SOUP_STATUS_CONFLICT : Nat := 409

/-- libsoup status constant `SOUP_STATUS_SERVICE_UNAVAILABLE`. -/
def SOUP_STATUS_SERVICE_UNAVAILABLE : Nat := 503

/-- Embedding of `get_status_code` (`libgstd/gstd_http.c`): the if/else
chain that maps a `GstdReturnCode` to the HTTP status of the response. -/
def get_status_code (ret : GstdReturnCode) : Nat :=
  if ret = .EOK then
    SOUP_STATUS_OK
  else if ret = .BAD_COMMAND ∨ ret = .NO_RESOURCE then
    SOUP_STATUS_NOT_FOUND
  else if ret = .EXISTING_RESOURCE then
    SOUP_STATUS_CONFLICT
  else if ret = .BAD_VALUE then
    SOUP_STATUS_NO_CONTENT
  else
    SOUP_STATUS_BAD_REQUEST

/-- The parts of the daemon that `gstd_http.c` and `gstd_socket.c` call into
but whose sources are not part of this subset. `parse` is
`gstd_parser_parse_cmd` applied to the shared session, returning the code and
the (possibly absent) output text; `code_to_string` is
`gstd_return_code_to_string`; `code_value` is the numeric value the enum
constant has when printed with `%d`. All theorems below hold for every
instantiation of these fields. -/
structure GstdEnv where
  parse : String → GstdReturnCode × Option String
  code_to_string : GstdReturnCode → String
  code_value : GstdReturnCode → Int

/-- The HTTP methods distinguished by `do_request` (`SOUP_METHOD_*`
comparisons); any other method leaves `ret` at its initializer
`GSTD_BAD_COMMAND`. -/
inductive HttpMethod where
  | GET
  | POST
  | PUT
  | DELETE
  | OPTIONS
  | other
  deriving DecidableEq, Repr

/-- Embedding of `do_get` (`libgstd/gstd_http.c`): builds `read <path>` and
hands it to the parser. The non-NULL pointer guards on `server`, `msg`,
`session`, `output` and `path` always pass in this model. -/
def do_get (env : GstdEnv) (path : String) : GstdReturnCode × Option String :=
  env.parse ("read " ++ path)

/-- Embedding of `do_post` (`libgstd/gstd_http.c`). The C function first runs
`g_return_val_if_fail (name, GSTD_NULL_ARGUMENT)`, which returns
`GSTD_NULL_ARGUMENT` (with a critical log) when `name` is NULL; the
`if (!name) \x7b ret = GSTD_BAD_VALUE; ... \x7d` block that follows it is
therefore unreachable and does not appear as a live branch here. With a name
present, the command `create <path> <name> [<description>]` is parsed. -/
def do_post (env : GstdEnv) (name description : Option String)
    (path : String) : GstdReturnCode × Option String :=
  match name with
  | none => (.NULL_ARGUMENT, none)
  | some n =>
      let message := match description with
        | some d => "create " ++ path ++ " " ++ n ++ " " ++ d
        | none => "create " ++ path ++ " " ++ n
      env.parse message

/-- Embedding of `do_put` (`libgstd/gstd_http.c`). Same guard structure as
`do_post`: the `g_return_val_if_fail (name, GSTD_NULL_ARGUMENT)` guard fires
before the unreachable `BAD_VALUE` block. -/
def do_put (env : GstdEnv) (name : Option String)
    (path : String) : GstdReturnCode × Option String :=
  match name with
  | none => (.NULL_ARGUMENT, none)
  | some n => env.parse ("update " ++ path ++ " " ++ n)

/-- Embedding of `do_delete` (`libgstd/gstd_http.c`). Same guard structure as
`do_post`. -/
def do_delete (env : GstdEnv) (name : Option String)
    (path : String) : GstdReturnCode × Option String :=
  match name with
  | none => (.NULL_ARGUMENT, none)
  | some n => env.parse ("delete " ++ path ++ " " ++ n)

/-- The JSON envelope built by the HTTP worker `do_request`
(`libgstd/gstd_http.c`), literally the `g_strdup_printf` format
`"\x7b\n  \"code\" : %d,\n  \"description\" : \"%s\",\n  \"response\" : %s\n\x7d"`
applied to the return code, its description, and `output ? output : "null"`. -/
def do_request_response (env : GstdEnv) (ret : GstdReturnCode)
    (output : Option String) : String :=
  "\x7b\n  \"code\" : " ++ toString (env.code_value ret) ++
    ",\n  \"description\" : \"" ++ env.code_to_string ret ++
    "\",\n  \"response\" : " ++
    (match output with
     | some o => o
     | none => "null") ++ "\n\x7d"

/-- The content type `do_request` passes to
`soup_server_message_set_response` / `soup_message_set_response`. -/
def do_request_content_type : String := "application/json"

/-- The response-body bytes the worker hands to libsoup: `strlen (response)`
bytes of the envelope, with no NUL terminator. -/
def do_request_set_response_bytes (env : GstdEnv) (ret : GstdReturnCode)
    (output : Option String) : List Char :=
  (do_request_response env ret output).data

/-- Observable result of the HTTP worker task `do_request`
(`libgstd/gstd_http.c`): the return code of the dispatched command, the
response body and content type assigned to the message, and the HTTP
status. -/
structure WorkerResult where
  ret : GstdReturnCode
  body : String
  contentType : String
  status : Nat
  deriving DecidableEq, Repr

/-- Embedding of the worker task `do_request` (`libgstd/gstd_http.c`).
`bodyName`/`bodyDesc` are the `name`/`description` string members extracted
from an `application/json` body by `parse_json_body` (absent when the body is
missing, not JSON, unparsable, or lacks the member); `queryName`/`queryDesc`
are the `name`/`description` query-table entries (absent when the query table
is NULL or has no such key). The body value wins; the query fills in a field
the body left unset. `ret` is initialized to `GSTD_BAD_COMMAND`, so an
unrecognized method keeps it. -/
def do_request (env : GstdEnv) (method : HttpMethod) (path : String)
    (bodyName bodyDesc queryName queryDesc : Option String) : WorkerResult :=
  let name := match bodyName with
    | some n => some n
    | none => queryName
  let description_pipe := match bodyDesc with
    | some d => some d
    | none => queryDesc
  let step : GstdReturnCode × Option String :=
    match method with
    | .GET => do_get env path
    | .POST => do_post env name description_pipe path
    | .PUT => do_put env name path
    | .DELETE => do_delete env name path
    | .OPTIONS => (.EOK, none)
    | .other => (.BAD_COMMAND, none)
  { ret := step.1
    body := do_request_response env step.1 step.2
    contentType := do_request_content_type
    status := get_status_code step.1 }

/-- The three CORS headers the main path of `server_callback` appends
(`libgstd/gstd_http.c`). -/
def gstd_http_cors_headers : List (String × String) :=
  [("Access-Control-Allow-Origin", "*"),
   ("Access-Control-Allow-Headers", "origin,range,content-type"),
   ("Access-Control-Allow-Methods", "PUT, GET, POST, DELETE")]

/-- The CORS headers appended by the two fast-path handlers
(`handle_health_request`, `handle_pipelines_status`), whose allowed method
list is just `GET`. -/
def gstd_http_cors_headers_fast : List (String × String) :=
  [("Access-Control-Allow-Origin", "*"),
   ("Access-Control-Allow-Headers", "origin,range,content-type"),
   ("Access-Control-Allow-Methods", "GET")]

/-- The static body of `handle_health_request` (`libgstd/gstd_http.c`),
literally
`"\x7b\n  \"code\" : 0,\n  \"description\" : \"OK\",\n  \"response\" : \x7b\"status\": \"healthy\"\x7d\n\x7d"`. -/
def gstd_http_health_response : String :=
  "\x7b\n  \"code\" : 0,\n  \"description\" : \"OK\",\n  \"response\" : \x7b\"status\": \"healthy\"\x7d\n\x7d"

/-- How `server_callback` disposes of a request: answered inline on the
accept task by a fast-path handler, queued for a worker, or rejected after a
failed `g_thread_pool_push` with the given status. -/
inductive ServerOutcome where
  | fastHealth (status : Nat) (contentType : String) (body : String)
  | fastPipelinesStatus (status : Nat) (contentType : String)
  | submitted
  | rejected (status : Nat)
  deriving DecidableEq, Repr

/-- Observable effects of one `server_callback` invocation
(`libgstd/gstd_http.c`): headers appended to the request and to the response
collections, pause/unpause calls on the message, allocation and freeing of
the `GstdHttpRequest` descriptor, references taken/released on the query
table, and whether the callback itself ran the parser or called into
GStreamer. -/
structure CallbackResult where
  outcome : ServerOutcome
  requestHeadersAppended : List (String × String)
  responseHeadersAppended : List (String × String)
  pausedMsg : Bool
  unpausedMsg : Bool
  descriptorAllocated : Bool
  descriptorFreed : Bool
  queryRefsTaken : Nat
  queryRefsReleased : Nat
  parserCalled : Bool
  engineCalled : Bool
  deriving DecidableEq, Repr

/-- Embedding of `handle_health_request` (`libgstd/gstd_http.c`): appends the
fast-path CORS headers to the response headers, sets the static body with
content type `application/json` and status `SOUP_STATUS_OK`. It touches no
descriptor, no query reference, no parser, and makes no GStreamer call (the
comment in the source: liveness only, "Avoids GStreamer calls"). -/
def handle_health_request : CallbackResult :=
  { outcome := .fastHealth SOUP_STATUS_OK "application/json"
      gstd_http_health_response
    requestHeadersAppended := []
    responseHeadersAppended := gstd_http_cors_headers_fast
    pausedMsg := false
    unpausedMsg := false
    descriptorAllocated := false
    descriptorFreed := false
    queryRefsTaken := 0
    queryRefsReleased := 0
    parserCalled := false
    engineCalled := false }

/-- Embedding of `handle_pipelines_status` (`libgstd/gstd_http.c`) at the
granularity these claims need: inline on the accept task, response status
`SOUP_STATUS_OK`, no parser, but it does query GStreamer element state
(`gst_element_get_state`). -/
def handle_pipelines_status : CallbackResult :=
  { outcome := .fastPipelinesStatus SOUP_STATUS_OK "application/json"
    requestHeadersAppended := []
    responseHeadersAppended := gstd_http_cors_headers_fast
    pausedMsg := false
    unpausedMsg := false
    descriptorAllocated := false
    descriptorFreed := false
    queryRefsTaken := 0
    queryRefsReleased := 0
    parserCalled := false
    engineCalled := true }

/-- Embedding of `server_callback` (`libgstd/gstd_http.c`, the complete
file's version). `/health` and `/pipelines/status` are answered inline
before any descriptor exists. Otherwise the descriptor is allocated
(`g_new0`), a reference is taken on the query table when one is present, the
three CORS headers are appended to the *response* header collection (both
`SOUP_CHECK_VERSION` branches select it: `soup_server_message_get_response_headers`
resp. `msg->response_headers`), the message is paused, and the descriptor is
pushed to the pool. When `g_thread_pool_push` fails, the callback releases
the query reference (when it took one), frees the descriptor, sets status
`SOUP_STATUS_SERVICE_UNAVAILABLE` and unpauses the message. -/
def server_callback (path : String) (hasQuery : Bool)
    (pushOk : Bool) : CallbackResult :=
  if path = "/health" then
    handle_health_request
  else if path = "/pipelines/status" then
    handle_pipelines_status
  else
    let qTaken : Nat := if hasQuery then 1 else 0
    if pushOk then
      { outcome := .submitted
        requestHeadersAppended := []
        responseHeadersAppended := gstd_http_cors_headers
        pausedMsg := true
        unpausedMsg := false
        descriptorAllocated := true
        descriptorFreed := false
        queryRefsTaken := qTaken
        queryRefsReleased := 0
        parserCalled := false
        engineCalled := false }
    else
      { outcome := .rejected SOUP_STATUS_SERVICE_UNAVAILABLE
        requestHeadersAppended := []
        responseHeadersAppended := gstd_http_cors_headers
        pausedMsg := true
        unpausedMsg := true
        descriptorAllocated := true
        descriptorFreed := true
        queryRefsTaken := qTaken
        queryRefsReleased := qTaken
        parserCalled := false
        engineCalled := false }

/-- Modelled from the spec: `GSTD_HTTP_DEFAULT_MAX_THREADS` is declared in
`gstd_http.h`, which is not part of this source subset. The specification's
option table gives `--http-max-threads` the default 16, and the changelog
records the default changing from -1 (unlimited) to 16. -/
def GSTD_HTTP_DEFAULT_MAX_THREADS : Int := 16

/-- `gstd_http_init` (`libgstd/gstd_http.c`):
`self->max_threads = GSTD_HTTP_DEFAULT_MAX_THREADS`. -/
def gstd_http_init_max_threads : Int := GSTD_HTTP_DEFAULT_MAX_THREADS

/-- GLib `g_thread_pool_new` semantics for its `max_threads` argument: a
value of -1 (any negative value) means no limit on the number of threads. -/
def g_thread_pool_unlimited (max_threads : Int) : Bool :=
  max_threads < 0

/-- Outcome of `gstd_http_start`: the returned code, and the `max_threads`
capacity the pool was created with (none when `g_thread_pool_new` was never
reached or failed). -/
structure HttpStartResult where
  code : GstdReturnCode
  poolCreatedCapacity : Option Int
  deriving DecidableEq, Repr

/-- Embedding of `gstd_http_start` (`libgstd/gstd_http.c`). The booleans
record whether `soup_server_new`, `g_thread_pool_new`, the address parse and
`soup_server_listen` succeed. The pool is created by
`g_thread_pool_new (do_request, NULL, self->max_threads, FALSE, &error)` —
the configured `max_threads` value is passed through verbatim; no branch of
the function alters or clamps it. -/
def gstd_http_start (serverOk poolOk saOk listenOk : Bool)
    (max_threads : Int) : HttpStartResult :=
  if !serverOk then
    { code := .NO_CONNECTION, poolCreatedCapacity := none }
  else if !poolOk then
    { code := .NO_CONNECTION, poolCreatedCapacity := none }
  else if !saOk then
    { code := .NO_CONNECTION, poolCreatedCapacity := some max_threads }
  else if !listenOk then
    { code := .NO_CONNECTION, poolCreatedCapacity := some max_threads }
  else
    { code := .EOK, poolCreatedCapacity := some max_threads }

/-- `gstd_socket_callback` (`gstd_socket.c`):
`const guint size = 1024 * 1024;` and `message = g_malloc (size)` — the
connection buffer holds exactly `size` bytes, valid indices `0 … size-1`. -/
def gstd_socket_buffer_size : Nat := 1024 * 1024

/-- The `count` argument of `g_input_stream_read (istream, message, size,
NULL, &error)` in `gstd_socket_callback`: the read may return any byte count
up to this value. -/
def g_input_stream_read_max : Nat := gstd_socket_buffer_size

/-- The index of the NUL terminator written by `message[read] = 0` in
`gstd_socket_callback` after a successful read of `read` bytes. -/
def gstd_socket_nul_index (read : Nat) : Nat := read

/-- Whether the terminator store `message[read] = 0` lands inside the
allocated buffer. -/
def gstd_socket_nul_write_in_bounds (read : Nat) : Bool :=
  gstd_socket_nul_index read < gstd_socket_buffer_size

/-- The JSON envelope built by the TCP per-connection loop
(`gstd_socket_callback`, `gstd_socket.c`), literally the `g_strdup_printf`
format
`"\x7b\n  \"code\" : %d,\n  \"description\" : \"%s\",\n  \"response\" : %s\n\x7d"`
applied to the return code, its description, and `output ? output : "null"`. -/
def gstd_socket_response (env : GstdEnv) (ret : GstdReturnCode)
    (output : Option String) : String :=
  "\x7b\n  \"code\" : " ++ toString (env.code_value ret) ++
    ",\n  \"description\" : \"" ++ env.code_to_string ret ++
    "\",\n  \"response\" : " ++
    (match output with
     | some o => o
     | none => "null") ++ "\n\x7d"

/-- The bytes of the single `g_output_stream_write (ostream, response,
strlen (response) + 1, NULL, &error)` call in `gstd_socket_callback`: the
envelope followed by its NUL terminator, written together. -/
def gstd_socket_write_bytes (env : GstdEnv) (ret : GstdReturnCode)
    (output : Option String) : List Char :=
  (gstd_socket_response env ret output).data ++ [Char.ofNat 0]

/-- The GLib parameter types distinguished by the conversion chain in
`gstd_action_create_default` (`gstd_action.c`); every other `GType` falls
through to the `GSTD_BAD_COMMAND` branch. -/
inductive GType where
  | string
  | int
  | uint
  | uint64
  | boolean
  | float
  | double
  | other
  deriving DecidableEq, Repr

/-- Whether the conversion chain in `gstd_action_create_default` handles the
type (STRING, INT, UINT, UINT64, BOOLEAN, FLOAT, DOUBLE). -/
def gtype_supported (t : GType) : Bool :=
  match t with
  | .other => false
  | _ => true

/-- The signal description `g_signal_query` fills in: the parameter types of
the action's signal. In C the struct carries `n_params` and `param_types`
separately but always consistently; the model derives `n_params` from the
list. -/
structure GSignalQuery where
  param_types : List GType
  deriving DecidableEq, Repr

/-- `query.n_params`: number of declared signal parameters. -/
def GSignalQuery.n_params (q : GSignalQuery) : Nat :=
  q.param_types.length

/-- Splitting a character list at every space, GLib-style: consecutive
delimiters produce empty tokens. -/
def split_tokens_aux : List Char → List Char → List String
  | [], acc => [String.mk acc.reverse]
  | c :: cs, acc =>
      if c = ' ' then
        String.mk acc.reverse :: split_tokens_aux cs []
      else
        split_tokens_aux cs (c :: acc)

/-- All space-separated tokens of a string (the result of GLib `g_strsplit`
with delimiter `" "` and no token cap, except that the empty string maps to
the empty vector, as GLib specifies). -/
def space_tokens (s : String) : List String :=
  if s = "" then [] else split_tokens_aux s.data []

/-- The number of space-separated tokens of a string. -/
def space_token_count (s : String) : Nat :=
  (space_tokens s).length

/-- GLib `g_strsplit (s, " ", max_tokens)`: splits at spaces; once
`max_tokens` pieces exist, the remainder of the string (delimiters included)
is appended to the last token; the empty string yields an empty vector. -/
def g_strsplit (s : String) (max_tokens : Nat) : List String :=
  if s = "" then
    []
  else
    let ts := split_tokens_aux s.data []
    if ts.length ≤ max_tokens then
      ts
    else
      ts.take (max_tokens - 1) ++
        [String.intercalate " " (ts.drop (max_tokens - 1))]

/-- GLib `g_strv_length`; on NULL (modelled as the empty list, the value
`arg_list` keeps when `description` is NULL) it returns 0 after a critical
check. -/
def g_strv_length (l : List String) : Nat := l.length

/-- Result of `gstd_action_create_default`: the returned code and whether
`g_signal_emitv` ran (the side effect on the Engine element). -/
structure ActionResult where
  ret : GstdReturnCode
  emitted : Bool
  deriving DecidableEq, Repr

/-- Embedding of `gstd_action_create_default` (`gstd_action.c`) for a
non-NULL object and name (their `g_return_val_if_fail` guards pass). With
parameters declared and a missing, empty, or literal `"(null)"` description
it returns `GSTD_NULL_ARGUMENT` before doing anything; otherwise the
description is split by `g_strsplit (description, " ", query.n_params)` and
the token count is compared against `n_params`; then the conversion chain
runs, and only if every parameter type is supported does `g_signal_emitv`
fire (code `GSTD_EOK`); an unsupported type aborts with `GSTD_BAD_COMMAND`
and no emission. -/
def gstd_action_create_default (query : GSignalQuery)
    (description : Option String) : ActionResult :=
  if query.n_params > 0 ∧
      (description = none ∨ description = some "(null)" ∨
        description = some "") then
    { ret := .NULL_ARGUMENT, emitted := false }
  else
    let arg_list : List String := match description with
      | some d => g_strsplit d query.n_params
      | none => []
    if g_strv_length arg_list ≠ query.n_params then
      { ret := .NULL_ARGUMENT, emitted := false }
    else if query.param_types.all gtype_supported then
      { ret := .EOK, emitted := true }
    else
      { ret := .BAD_COMMAND, emitted := false }

/-- Outcome of a `gstd_parser_parse_cmd` call: either the process crashes
inside the parser, or the call completes with a code and an output. -/
inductive ParseOutcome where
  | crash
  | completes (ret : GstdReturnCode) (output : Option String)
  deriving DecidableEq, Repr

/-- Modelled from the spec: `gstd_parser_parse_cmd` — `gstd_parser.c` is not
part of this source subset; only its callers and its test suite are. The
model records the behaviors both document: a NULL command is rejected
through `g_return_val_if_fail` with a critical warning and the
`GSTD_NULL_ARGUMENT` code (test `test_parse_null_command`), and an empty
command string crashes the parser — the test suite states "Empty string ''
causes crash in parser (known limitation)" and the specification repeats
that the source crashes on empty input. Any other command completes with the
outcome of the `dispatch` parameter. -/
def gstd_parser_parse_cmd_model
    (dispatch : String → GstdReturnCode × Option String)
    (cmd : Option String) : ParseOutcome :=
  match cmd with
  | none => .completes .NULL_ARGUMENT none
  | some s =>
      if s = "" then
        .crash
      else
        .completes (dispatch s).1 (dispatch s).2

/-- JSON-insignificant whitespace removal (none of the string literals in
the health body contains a space, so filtering is faithful): used to compare
the served body against its compact rendering. -/
def stripJsonWs (s : String) : String :=
  String.mk (s.data.filter (fun c => ¬ (c = ' ' ∨ c = '\n')))

end Gstd

namespace Gstd

/-- C6: the HTTP status derived from a worker return code is exactly:
`EOK` maps to 200, `BAD_COMMAND` and `NO_RESOURCE` map to 404,
`EXISTING_RESOURCE` maps to 409, `BAD_VALUE` maps to 204, and every other
code (`NULL_ARGUMENT`, `NO_CONNECTION`, `NO_UPDATE`, `TIMEOUT`) maps
to 400. -/
theorem get_status_code_spec :
    get_status_code .EOK = 200 ∧
    get_status_code .BAD_COMMAND = 404 ∧
    get_status_code .NO_RESOURCE = 404 ∧
    get_status_code .EXISTING_RESOURCE = 409 ∧
    get_status_code .BAD_VALUE = 204 ∧
    get_status_code .NULL_ARGUMENT = 400 ∧
    get_status_code .NO_CONNECTION = 400 ∧
    get_status_code .NO_UPDATE = 400 ∧
    get_status_code .TIMEOUT = 400 := by
  decide

/-- C1 (evaluation at the failing input): on the empty command string the
parser crashes — the outcome is `crash`, which is never a completed
`BAD_COMMAND` return, for every dispatch behavior of the non-empty
commands. -/
theorem gstd_parser_empty_string_crashes
    (dispatch : String → GstdReturnCode × Option String) :
    gstd_parser_parse_cmd_model dispatch (some "") = .crash ∧
    (∀ c o, gstd_parser_parse_cmd_model dispatch (some "") ≠
      .completes c o) := by
  refine ⟨rfl, ?_⟩
  intro c o h
  exact ParseOutcome.noConfusion h

/-- C2 (evaluation at the failing input): for every POST, PUT, or DELETE
request in which neither the JSON body nor the query supplies a `name`, the
worker returns `NULL_ARGUMENT` — the `g_return_val_if_fail (name,
GSTD_NULL_ARGUMENT)` guard fires before the dead `BAD_VALUE` branch — and
the HTTP status is 400, not the 204 the `BAD_VALUE` mapping would give. -/
theorem do_request_missing_name_null_argument (env : GstdEnv) (path : String)
    (bodyDesc queryDesc : Option String) :
    (do_request env .POST path none bodyDesc none queryDesc).ret =
        .NULL_ARGUMENT ∧
    (do_request env .POST path none bodyDesc none queryDesc).status = 400 ∧
    (do_request env .PUT path none bodyDesc none queryDesc).ret =
        .NULL_ARGUMENT ∧
    (do_request env .PUT path none bodyDesc none queryDesc).status = 400 ∧
    (do_request env .DELETE path none bodyDesc none queryDesc).ret =
        .NULL_ARGUMENT ∧
    (do_request env .DELETE path none bodyDesc none queryDesc).status = 400 ∧
    get_status_code .BAD_VALUE = 204 := by
  exact ⟨rfl, rfl, rfl, rfl, rfl, rfl, rfl⟩

/-- C3: when `g_thread_pool_push` fails on a non-fast-path request, the
server frees the request descriptor, releases exactly the query-table
references it took, sets status 503 on the message, and unpauses it —
no cleanup step is skipped. -/
theorem server_callback_push_failure_cleanup (path : String)
    (hasQuery : Bool) (hh : path ≠ "/health")
    (hp : path ≠ "/pipelines/status") :
    (server_callback path hasQuery false).descriptorFreed = true ∧
    (server_callback path hasQuery false).queryRefsReleased =
      (server_callback path hasQuery false).queryRefsTaken ∧
    (server_callback path hasQuery false).outcome = .rejected 503 ∧
    (server_callback path hasQuery false).unpausedMsg = true := by
  unfold server_callback
  rw [if_neg hh, if_neg hp]
  exact ⟨rfl, rfl, rfl, rfl⟩

/-- C3 witness: the cleanup theorem applied to the concrete path
`/pipelines` with a query table present. -/
theorem server_callback_push_failure_cleanup_witness :
    (server_callback "/pipelines" true false).descriptorFreed = true ∧
    (server_callback "/pipelines" true false).queryRefsReleased =
      (server_callback "/pipelines" true false).queryRefsTaken ∧
    (server_callback "/pipelines" true false).outcome = .rejected 503 ∧
    (server_callback "/pipelines" true false).unpausedMsg = true :=
  server_callback_push_failure_cleanup "/pipelines" true
    (by decide) (by decide)

/-- C5: on every non-fast-path request the three CORS headers are appended
to the response header collection, and nothing is appended to the request
header collection, whether or not the pool push succeeds. -/
theorem server_callback_cors_to_response_headers (path : String)
    (hasQuery pushOk : Bool) (hh : path ≠ "/health")
    (hp : path ≠ "/pipelines/status") :
    (server_callback path hasQuery pushOk).responseHeadersAppended =
      [("Access-Control-Allow-Origin", "*"),
       ("Access-Control-Allow-Headers", "origin,range,content-type"),
       ("Access-Control-Allow-Methods", "PUT, GET, POST, DELETE")] ∧
    (server_callback path hasQuery pushOk).requestHeadersAppended = [] := by
  unfold server_callback
  rw [if_neg hh, if_neg hp]
  cases pushOk <;> exact ⟨rfl, rfl⟩

/-- C5 witness: the CORS theorem applied to the concrete path
`/pipelines`. -/
theorem server_callback_cors_to_response_headers_witness :
    (server_callback "/pipelines" true true).responseHeadersAppended =
      [("Access-Control-Allow-Origin", "*"),
       ("Access-Control-Allow-Headers", "origin,range,content-type"),
       ("Access-Control-Allow-Methods", "PUT, GET, POST, DELETE")] ∧
    (server_callback "/pipelines" true true).requestHeadersAppended = [] :=
  server_callback_cors_to_response_headers "/pipelines" true true
    (by decide) (by decide)

/-- C7: for every return code and parser output, the TCP server and the
HTTP worker render character-for-character the same JSON envelope (with the
response member rendered as the literal `null` when no output was produced);
the TCP write is the envelope plus exactly one trailing NUL byte in the same
write, while the HTTP response body is the bare envelope, served with
content type `application/json`. -/
theorem socket_http_envelope_agreement (env : GstdEnv)
    (ret : GstdReturnCode) (output : Option String) :
    gstd_socket_response env ret output = do_request_response env ret output ∧
    gstd_socket_write_bytes env ret output =
      do_request_set_response_bytes env ret output ++ [Char.ofNat 0] ∧
    do_request_content_type = "application/json" ∧
    gstd_socket_response env ret none =
      gstd_socket_response env ret (some "null") := by
  exact ⟨rfl, rfl, rfl, rfl⟩

/-- C8: a request for `/health` is answered inline: status 200, content
type `application/json`, the static health body (whose whitespace-stripped
form is exactly the compact JSON of the claim), with no descriptor
allocated, no pool submission, no parser call and no Engine call. -/
theorem server_callback_health_fast_path (hasQuery pushOk : Bool) :
    (server_callback "/health" hasQuery pushOk).outcome =
      .fastHealth 200 "application/json" gstd_http_health_response ∧
    (server_callback "/health" hasQuery pushOk).descriptorAllocated =
      false ∧
    (server_callback "/health" hasQuery pushOk).outcome ≠ .submitted ∧
    (server_callback "/health" hasQuery pushOk).parserCalled = false ∧
    (server_callback "/health" hasQuery pushOk).engineCalled = false ∧
    stripJsonWs gstd_http_health_response =
      "\x7b\"code\":0,\"description\":\"OK\",\"response\":\x7b\"status\":\"healthy\"\x7d\x7d" := by
  refine ⟨rfl, rfl, ?_, rfl, rfl, by decide⟩
  intro h
  exact ServerOutcome.noConfusion h

/-- C4 counterexample: starting the HTTP server with the configured
thread-count -1 creates the pool with capacity -1 — the unlimited GLib
value, not a bounded default and not 16. No clamping happens before
`g_thread_pool_new`. -/
theorem gstd_http_start_minus_one_unclamped :
    gstd_http_start true true true true (-1) =
      { code := .EOK, poolCreatedCapacity := some (-1) } ∧
    (some (-1 : Int) ≠ some (16 : Int)) ∧
    g_thread_pool_unlimited (-1) = true := by
  exact ⟨rfl, by decide, rfl⟩

/-- C4 amended: the pool is created with exactly the configured
`max_threads` value — -1 included, which `g_thread_pool_new` treats as
unlimited — and only the default configuration installed by
`gstd_http_init` is the bounded value 16. -/
theorem gstd_http_start_capacity_is_configured (max_threads : Int) :
    (gstd_http_start true true true true max_threads).code = .EOK ∧
    (gstd_http_start true true true true max_threads).poolCreatedCapacity =
      some max_threads ∧
    gstd_http_init_max_threads = 16 ∧
    g_thread_pool_unlimited gstd_http_init_max_threads = false := by
  exact ⟨rfl, rfl, rfl, rfl⟩

/-- C9 (evaluation at the failing input): the TCP read is issued for up to
`size = 1024*1024` bytes into a buffer of exactly `size` bytes, and a full
read of `size` bytes puts the NUL-terminator store `message[read]` one past
the end of the buffer — the claimed bound `read < size` fails at
`read = size`, while every shorter read stays in bounds. -/
theorem gstd_socket_nul_write_overflow_at_full_read :
    0 < g_input_stream_read_max ∧
    g_input_stream_read_max = gstd_socket_buffer_size ∧
    gstd_socket_nul_write_in_bounds g_input_stream_read_max = false ∧
    gstd_socket_nul_write_in_bounds (gstd_socket_buffer_size - 1) = true := by
  refine ⟨by decide, rfl, ?_, ?_⟩ <;> decide

/-- C10 counterexample: for a signal with one string parameter, a
description holding two space-separated tokens is *not* rejected:
`g_strsplit` with the token cap `n_params` folds the surplus into the last
argument, the conversion chain accepts it, and the signal is emitted with
code `EOK` — not `NULL_ARGUMENT`, and with a side effect. -/
theorem gstd_action_create_extra_tokens_emits :
    space_token_count "a b" = 2 ∧
    (GSignalQuery.mk [GType.string]).n_params = 1 ∧
    gstd_action_create_default ⟨[GType.string]⟩ (some "a b") =
      { ret := .EOK, emitted := true } := by
  refine ⟨by decide, by decide, by decide⟩

/-- C10 amended: for every action whose signal declares at least one
parameter, a description that is NULL, empty, or the literal `"(null)"`, or
one with *fewer* space-separated tokens than the parameter count, yields
`NULL_ARGUMENT` without emitting the signal. (A description with more
tokens than parameters is instead folded by `g_strsplit` into exactly
`n_params` arguments and can be emitted.) -/
theorem gstd_action_create_reject (pts : List GType) (d : Option String)
    (hne : pts ≠ []) :
    ((d = none ∨ d = some "" ∨ d = some "(null)") →
      gstd_action_create_default ⟨pts⟩ d =
        { ret := .NULL_ARGUMENT, emitted := false }) ∧
    (∀ s, d = some s → space_token_count s < pts.length →
      gstd_action_create_default ⟨pts⟩ d =
        { ret := .NULL_ARGUMENT, emitted := false }) := by
  have hpos : 0 < pts.length := List.length_pos.mpr hne
  constructor
  · intro hd
    unfold gstd_action_create_default
    rw [if_pos]
    exact ⟨hpos, by tauto⟩
  · intro s hs hlt
    subst hs
    unfold gstd_action_create_default
    by_cases hbad : (GSignalQuery.mk pts).n_params > 0 ∧
        ((some s : Option String) = none ∨ some s = some "(null)" ∨
          some s = some "")
    · rw [if_pos hbad]
    · rw [if_neg hbad]
      have hne2 : g_strv_length
          (g_strsplit s (GSignalQuery.mk pts).n_params) ≠
          (GSignalQuery.mk pts).n_params := by
        show g_strv_length (g_strsplit s pts.length) ≠ pts.length
        by_cases hs0 : s = ""
        · subst hs0
          have hempty : g_strsplit "" pts.length = [] := rfl
          rw [hempty]
          simp only [g_strv_length, List.length_nil]
          omega
        · have htoks : space_token_count s =
              (split_tokens_aux s.data []).length := by
            simp only [space_token_count, space_tokens, if_neg hs0]
          simp only [g_strsplit, if_neg hs0]
          rw [if_pos (by omega : (split_tokens_aux s.data []).length ≤
            pts.length)]
          simp only [g_strv_length]
          omega
      simp only [if_pos hne2]

/-- C10 witness: the rejection theorem applied to a two-parameter signal
with a one-token description, and to a one-parameter signal with an empty
description. -/
theorem gstd_action_create_reject_witness :
    ([GType.string, GType.int] ≠ ([] : List GType)) ∧
    space_token_count "a" < 2 ∧
    gstd_action_create_default ⟨[GType.string, GType.int]⟩ (some "a") =
      { ret := .NULL_ARGUMENT, emitted := false } ∧
    gstd_action_create_default ⟨[GType.string]⟩ (some "") =
      { ret := .NULL_ARGUMENT, emitted := false } :=
  ⟨by decide, by decide,
    (gstd_action_create_reject [GType.string, GType.int] (some "a")
      (by decide)).2 "a" rfl (by decide),
    (gstd_action_create_reject [GType.string] (some "")
      (by decide)).1 (Or.inr (Or.inl rfl))⟩

end Gstd
